import Mathlib

/-!
Verification of the EV charging-station financial model
(src/charging_station_model.py) against its specification.

The script is a straight-line arithmetic pipeline: from station
configuration, cost, energy-mix and financing assumptions it builds a
multi-year cash-flow projection and derives NPV, IRR, payback period,
profitability index and a breakeven price per kWh.  We embed the
arithmetic over exact rationals; every definition mirrors the source
line it is named after.
-/

namespace EvModel

/-- Asset ownership selector, line 34 of the source
("Outright Purchase" or "Lease"). -/
inductive AssetOwnership where
  | outrightPurchase
  | lease
deriving DecidableEq

/-- The sidebar inputs of the model (lines 12-41 of the source), bundled
into one record.  Informational fields that never enter the arithmetic
(location, charger type, charging duration) are omitted.  Numeric inputs
are modelled as exact rationals. -/
structure StationInputs where
  sessions_per_day : ℚ
  capex : ℚ
  opex_monthly : ℚ
  price_per_kwh : ℚ
  avg_kwh_per_session : ℚ
  solar_percent : ℚ
  dg_percent : ℚ
  grid_cost_per_kwh : ℚ
  dg_cost_per_kwh : ℚ
  solar_cost_per_kwh : ℚ
  cng_cost_per_kwh : ℚ
  asset_ownership : AssetOwnership
  loan_pct : ℚ
  loan_term : ℕ
  interest_rate : ℚ
  years : ℕ
  discount_rate : ℚ

/-- Line 26: the CNG share is the remainder after solar and diesel;
it is a derived quantity, not an independent input. -/
def cng_percent (i : StationInputs) : ℚ :=
  100 - i.solar_percent - i.dg_percent

/-- Line 44: sessions_per_year = sessions_per_day * 365. -/
def sessions_per_year (i : StationInputs) : ℚ :=
  i.sessions_per_day * 365

/-- Line 45: revenue_per_year = sessions_per_year * avg_kwh_per_session * price_per_kwh. -/
def revenue_per_year (i : StationInputs) : ℚ :=
  sessions_per_year i * i.avg_kwh_per_session * i.price_per_kwh

/-- Lines 48-53: weighted energy cost over solar, diesel, CNG and grid,
with the grid share clamped at zero. -/
def avg_energy_cost_per_kwh (i : StationInputs) : ℚ :=
  (i.solar_percent / 100) * i.solar_cost_per_kwh +
  (i.dg_percent / 100) * i.dg_cost_per_kwh +
  (cng_percent i / 100) * i.cng_cost_per_kwh +
  (max 0 (100 - i.solar_percent - i.dg_percent - cng_percent i) / 100) * i.grid_cost_per_kwh

/-- Line 54: energy_cost_per_year = sessions_per_year * avg_kwh_per_session * avg_energy_cost_per_kwh. -/
def energy_cost_per_year (i : StationInputs) : ℚ :=
  sessions_per_year i * i.avg_kwh_per_session * avg_energy_cost_per_kwh i

/-- Line 58: loan_amount = capex * loan_pct / 100. -/
def loan_amount (i : StationInputs) : ℚ :=
  i.capex * i.loan_pct / 100

/-- Line 59: equity_amount = capex - loan_amount. -/
def equity_amount (i : StationInputs) : ℚ :=
  i.capex - loan_amount i

/-- The annuity payment function numpy_financial.pmt with fv = 0 and
payments at period end, as called on line 60.  From the library source:
the payment is -(pv * (1+rate)^nper) * rate / ((1+rate)^nper - 1) for a
nonzero rate and -pv / nper for rate = 0, which is the standard
amortization formula of the spec. -/
def npf_pmt (rate : ℚ) (nper : ℕ) (pv : ℚ) : ℚ :=
  if rate = 0 then -pv / (nper : ℚ)
  else -(pv * (1 + rate) ^ nper) * rate / ((1 + rate) ^ nper - 1)

/-- Lines 57-64 (financing branch): the annual loan payment is the
npf.pmt annuity on the loan amount when purchasing, 0 when leasing. -/
def annual_loan_payment (i : StationInputs) : ℚ :=
  match i.asset_ownership with
  | AssetOwnership.outrightPurchase =>
      npf_pmt (i.interest_rate / 100) i.loan_term (-(loan_amount i))
  | AssetOwnership.lease => 0

/-- Lines 57-64 (financing branch): the annual lease payment is 15 percent
of capex when leasing, 0 when purchasing. -/
def annual_lease_payment (i : StationInputs) : ℚ :=
  match i.asset_ownership with
  | AssetOwnership.outrightPurchase => 0
  | AssetOwnership.lease => i.capex * (15 / 100 : ℚ)

/-- Line 66: opex_yearly = opex_monthly * 12. -/
def opex_yearly (i : StationInputs) : ℚ :=
  i.opex_monthly * 12

/-- Line 67: costs_per_year = opex_yearly + annual_loan_payment +
annual_lease_payment + energy_cost_per_year.  Note that the loan payment
carries no year index: the same cost is used for every projected year. -/
def costs_per_year (i : StationInputs) : ℚ :=
  opex_yearly i + annual_loan_payment i + annual_lease_payment i + energy_cost_per_year i

/-- Line 68: net_cash_flow = revenue_per_year - costs_per_year. -/
def net_cash_flow (i : StationInputs) : ℚ :=
  revenue_per_year i - costs_per_year i

/-- Lines 71-74: cash_flows = [-capex] followed by the constant
net_cash_flow appended once per projected year. -/
def cash_flows (i : StationInputs) : List ℚ :=
  -i.capex :: List.replicate i.years (net_cash_flow i)

/-- Discounted sum of a list of cash flows whose first element sits at
the given period index: the body of the comprehensions on lines 77 and 79. -/
def discountedSum (rate : ℚ) : ℕ → List ℚ → ℚ
  | _, [] => 0
  | y, c :: rest => c / (1 + rate) ^ y + discountedSum rate (y + 1) rest

/-- numpy_financial.npv as called on line 77: the values discounted from
period 0. -/
def npf_npv (rate : ℚ) (values : List ℚ) : ℚ :=
  discountedSum rate 0 values

/-- Line 77: npv = npf.npv(discount_rate / 100, cash_flows). -/
def npv (i : StationInputs) : ℚ :=
  npf_npv (i.discount_rate / 100) (cash_flows i)

/-- Line 79: pv_of_inflows = the cash flows of years 1..years discounted
from period 1 (enumerate(cash_flows[1:], 1)). -/
def pv_of_inflows (i : StationInputs) : ℚ :=
  discountedSum (i.discount_rate / 100) 1 (cash_flows i).tail

/-- A Python float that is either an ordinary number or NaN.  np.nan and
the NaN returned by npf.irr are modelled by the nan constructor. -/
inductive PyFloat where
  | val (q : ℚ)
  | nan
deriving DecidableEq

/-- Python truthiness of a float: 0.0 is falsy, every other float is
truthy, and NaN is truthy. -/
def pyTruthy : PyFloat → Bool
  | PyFloat.val q => decide (q ≠ 0)
  | PyFloat.nan => true

/-- Multiplication of a Python float by a number: NaN propagates. -/
def pyMul : PyFloat → ℚ → PyFloat
  | PyFloat.val q, c => PyFloat.val (q * c)
  | PyFloat.nan, _ => PyFloat.nan

/-- The same-sign guard of numpy_financial.irr: all values strictly
positive when the first is positive, otherwise all strictly negative. -/
def sameSign (values : List ℚ) : Bool :=
  if 0 < values.getD 0 0 then values.all (fun v => decide (0 < v))
  else values.all (fun v => decide (v < 0))

/-- One NPV evaluation at a candidate rate, used by the modelled IRR
solver. -/
def npvAt (values : List ℚ) (r : ℚ) : ℚ :=
  discountedSum r 0 values

/-- Bisection with a fixed iteration budget. -/
def bisect (f : ℚ → ℚ) : ℕ → ℚ → ℚ → ℚ
  | 0, lo, hi => (lo + hi) / 2
  | n + 1, lo, hi =>
      let mid := (lo + hi) / 2
      if f lo * f mid ≤ 0 then bisect f n lo mid else bisect f n mid hi

/-- Modelled from the spec: numpy_financial.irr, called on line 78 but not
part of this repository.  Per the spec, IRR is the rate r with NPV(r) = 0,
solved numerically, and undefined when the cash-flow sequence never
changes sign; the library source returns NaN exactly when all values share
one strict sign (its same-sign guard).  We reproduce that guard exactly
and model the numeric root search by bisection. -/
def npf_irr (values : List ℚ) : PyFloat :=
  if sameSign values then PyFloat.nan
  else PyFloat.val (bisect (npvAt values) 40 (-(999 / 1000 : ℚ)) 10)

/-- Line 78: irr = npf.irr(cash_flows). -/
def irr (i : StationInputs) : PyFloat :=
  npf_irr (cash_flows i)

/-- Line 80: pi = pv_of_inflows / capex when capex is nonzero, np.nan
otherwise. -/
def pi (i : StationInputs) : PyFloat :=
  if i.capex ≠ 0 then PyFloat.val (pv_of_inflows i / i.capex) else PyFloat.nan

/-- Running sums with an accumulator: np.cumsum on line 81. -/
def cumsumFrom (acc : ℚ) : List ℚ → List ℚ
  | [] => []
  | x :: rest => (acc + x) :: cumsumFrom (acc + x) rest

/-- Line 81: cumulative_cf = np.cumsum(cash_flows). -/
def cumulative_cf (i : StationInputs) : List ℚ :=
  cumsumFrom 0 (cash_flows i)

/-- First index (counting from the given start) whose entry is strictly
positive: the generator expression on line 82, with none standing for the
"Beyond projection" sentinel. -/
def firstIdxPos : ℕ → List ℚ → Option ℕ
  | _, [] => none
  | k, x :: rest => if 0 < x then some k else firstIdxPos (k + 1) rest

/-- Line 82: pbp = the first index of cumulative_cf whose value is
strictly positive, or the not-achieved sentinel. -/
def pbp (i : StationInputs) : Option ℕ :=
  firstIdxPos 0 (cumulative_cf i)

/-- Line 85: breakeven price = costs_per_year / (sessions_per_year *
avg_kwh_per_session) when sessions_per_year > 0, else the number 0. -/
def breakeven_price_per_kwh (i : StationInputs) : ℚ :=
  if 0 < sessions_per_year i then
    costs_per_year i / (sessions_per_year i * i.avg_kwh_per_session)
  else 0

/-- Display alternatives for the IRR metric on line 91: either a
formatted float or the string "N/A". -/
inductive IrrDisplay where
  | formatted (x : PyFloat)
  | na
deriving DecidableEq

/-- Line 91: the IRR metric renders irr * 100 when irr is truthy and
"N/A" otherwise.  NaN is truthy in Python, so a NaN irr reaches the
formatted branch. -/
def irr_metric (i : StationInputs) : IrrDisplay :=
  if pyTruthy (irr i) then IrrDisplay.formatted (pyMul (irr i) 100) else IrrDisplay.na

/-! ### Helper lemmas about the list plumbing -/

theorem cumsumFrom_length (l : List ℚ) : ∀ acc, (cumsumFrom acc l).length = l.length := by
  induction l with
  | nil => intro acc; rfl
  | cons x rest ih => intro acc; simp [cumsumFrom, ih]

theorem cumsumFrom_getD_head (l : List ℚ) (acc : ℚ) (h : 0 < l.length) :
    (cumsumFrom acc l).getD 0 0 = acc + l.getD 0 0 := by
  cases l with
  | nil => simp at h
  | cons x rest => simp [cumsumFrom]

theorem cumsumFrom_getD_succ (l : List ℚ) : ∀ (acc : ℚ) (y : ℕ), y + 1 < l.length →
    (cumsumFrom acc l).getD (y + 1) 0 = (cumsumFrom acc l).getD y 0 + l.getD (y + 1) 0 := by
  induction l with
  | nil => intro acc y h; simp at h
  | cons x rest ih =>
    intro acc y h
    cases y with
    | zero =>
      have hr : 0 < rest.length := by simpa using h
      simp only [cumsumFrom, List.getD_cons_succ, List.getD_cons_zero]
      rw [cumsumFrom_getD_head rest (acc + x) hr]
    | succ z =>
      have hz : z + 1 < rest.length := by simpa using h
      simp only [cumsumFrom, List.getD_cons_succ]
      exact ih (acc + x) z hz

theorem replicate_getD (v : ℚ) : ∀ (n m : ℕ), m < n → (List.replicate n v).getD m 0 = v := by
  intro n
  induction n with
  | zero => intro m h; simp at h
  | succ k ih =>
    intro m h
    cases m with
    | zero => simp [List.replicate_succ]
    | succ z =>
      have hz : z < k := by omega
      simp only [List.replicate_succ, List.getD_cons_succ]
      exact ih z hz

theorem firstIdxPos_some (l : List ℚ) : ∀ (k j : ℕ), firstIdxPos k l = some j →
    k ≤ j ∧ j - k < l.length ∧ 0 < l.getD (j - k) 0 ∧
      ∀ m, m < j - k → ¬ 0 < l.getD m 0 := by
  induction l with
  | nil => intro k j h; simp [firstIdxPos] at h
  | cons x rest ih =>
    intro k j h
    by_cases hx : 0 < x
    · simp [firstIdxPos, hx] at h
      subst h
      refine ⟨le_refl k, ?_, ?_, ?_⟩
      · simp [Nat.sub_self]
      · simpa [Nat.sub_self] using hx
      · intro m hm
        simp [Nat.sub_self] at hm
    · simp [firstIdxPos, hx] at h
      obtain ⟨hk1, hlen, hpos, hmin⟩ := ih (k + 1) j h
      have hkj : k ≤ j := by omega
      have hd : j - k = (j - (k + 1)) + 1 := by omega
      refine ⟨hkj, ?_, ?_, ?_⟩
      · rw [hd]; simp; omega
      · rw [hd]; simpa using hpos
      · intro m hm
        cases m with
        | zero => simpa using hx
        | succ z =>
          have hzlt : z < j - (k + 1) := by omega
          simpa using hmin z hzlt

theorem firstIdxPos_none (l : List ℚ) : ∀ k, firstIdxPos k l = none →
    ∀ m, ¬ 0 < l.getD m 0 := by
  induction l with
  | nil => intro k _ m; simp
  | cons x rest ih =>
    intro k h m
    by_cases hx : 0 < x
    · simp [firstIdxPos, hx] at h
    · simp [firstIdxPos, hx] at h
      cases m with
      | zero => simpa using hx
      | succ z => simpa using ih (k + 1) h z

/-! ### Concrete inputs used by counterexamples and witnesses -/

/-- A valid Purchase input whose loan term (1 year) is shorter than the
projection horizon (2 years): interest rate 0, so the annuity payment is
the loan amount 100 paid in one year. -/
def c1In : StationInputs :=
  { sessions_per_day := 1
    capex := 100
    opex_monthly := 0
    price_per_kwh := 1
    avg_kwh_per_session := 1
    solar_percent := 100
    dg_percent := 0
    grid_cost_per_kwh := 50
    dg_cost_per_kwh := 150
    solar_cost_per_kwh := 0
    cng_cost_per_kwh := 100
    asset_ownership := AssetOwnership.outrightPurchase
    loan_pct := 100
    loan_term := 1
    interest_rate := 0
    years := 2
    discount_rate := 10 }

/-- A valid Lease input whose revenue (365) is far below its yearly cost
(1580), so every cash-flow entry is strictly negative and the cash-flow
sequence never changes sign. -/
def c2In : StationInputs :=
  { sessions_per_day := 1
    capex := 100
    opex_monthly := 100
    price_per_kwh := 1
    avg_kwh_per_session := 1
    solar_percent := 0
    dg_percent := 0
    grid_cost_per_kwh := 50
    dg_cost_per_kwh := 150
    solar_cost_per_kwh := 20
    cng_cost_per_kwh := 1
    asset_ownership := AssetOwnership.lease
    loan_pct := 50
    loan_term := 5
    interest_rate := 10
    years := 2
    discount_rate := 10 }

/-- An input with zero charging sessions per day, exercising the guarded
breakeven division. -/
def zIn : StationInputs :=
  { sessions_per_day := 0
    capex := 100
    opex_monthly := 100
    price_per_kwh := 1
    avg_kwh_per_session := 1
    solar_percent := 0
    dg_percent := 0
    grid_cost_per_kwh := 50
    dg_cost_per_kwh := 150
    solar_cost_per_kwh := 20
    cng_cost_per_kwh := 1
    asset_ownership := AssetOwnership.lease
    loan_pct := 50
    loan_term := 5
    interest_rate := 10
    years := 1
    discount_rate := 10 }

/-- A valid input realizing the cash-flow sequence [-100, 60, 60] of the
payback example: revenue 60 per year (price 12/73), zero costs. -/
def exIn : StationInputs :=
  { sessions_per_day := 1
    capex := 100
    opex_monthly := 0
    price_per_kwh := 12 / 73
    avg_kwh_per_session := 1
    solar_percent := 100
    dg_percent := 0
    grid_cost_per_kwh := 50
    dg_cost_per_kwh := 150
    solar_cost_per_kwh := 0
    cng_cost_per_kwh := 100
    asset_ownership := AssetOwnership.outrightPurchase
    loan_pct := 0
    loan_term := 5
    interest_rate := 0
    years := 2
    discount_rate := 10 }

/-! ### Shared structural lemmas about the projection -/

theorem cash_flows_length (i : StationInputs) : (cash_flows i).length = i.years + 1 := by
  simp [cash_flows]

theorem cash_flows_getD_zero (i : StationInputs) : (cash_flows i).getD 0 0 = -i.capex := by
  simp [cash_flows]

theorem cash_flows_getD (i : StationInputs) (y : ℕ) (h1 : 1 ≤ y) (h2 : y ≤ i.years) :
    (cash_flows i).getD y 0 = net_cash_flow i := by
  cases y with
  | zero => omega
  | succ z =>
    simp only [cash_flows, List.getD_cons_succ]
    exact replicate_getD _ _ _ (by omega)

theorem cumulative_cf_length (i : StationInputs) :
    (cumulative_cf i).length = (cash_flows i).length := by
  rw [cumulative_cf, cumsumFrom_length]

theorem cumulative_cf_getD_zero (i : StationInputs) :
    (cumulative_cf i).getD 0 0 = (cash_flows i).getD 0 0 := by
  rw [cumulative_cf, cumsumFrom_getD_head _ 0 (by simp [cash_flows]), zero_add]

theorem cumulative_cf_getD_succ (i : StationInputs) (y : ℕ) (h1 : 1 ≤ y) (h2 : y ≤ i.years) :
    (cumulative_cf i).getD y 0 =
      (cumulative_cf i).getD (y - 1) 0 + (cash_flows i).getD y 0 := by
  obtain ⟨z, rfl⟩ : ∃ z, y = z + 1 := ⟨y - 1, by omega⟩
  simp only [Nat.add_sub_cancel]
  exact cumsumFrom_getD_succ (cash_flows i) 0 z (by rw [cash_flows_length]; omega)

/-! ### Claim theorems -/

/-- C1 counterexample: on the input c1In (Purchase, loan term 1 year,
horizon 2 years, interest 0, annuity payment 100) the code gives year 2
the same cash flow as year 1, so the post-loan year does NOT exceed the
loan year by the annual loan payment as the claim states: the loan
payment is charged in year 2 as well. -/
theorem C1_counterexample :
    c1In.asset_ownership = AssetOwnership.outrightPurchase ∧
    c1In.loan_term = 1 ∧ c1In.years = 2 ∧
    annual_loan_payment c1In = 100 ∧
    (cash_flows c1In).getD 2 0 = (cash_flows c1In).getD 1 0 ∧
    (cash_flows c1In).getD 2 0 ≠ (cash_flows c1In).getD 1 0 + annual_loan_payment c1In := by
  have hpay : annual_loan_payment c1In = 100 := by
    norm_num [annual_loan_payment, npf_pmt, loan_amount, c1In]
  have hcf : cash_flows c1In = [-100, 265, 265] := by
    norm_num [cash_flows, net_cash_flow, revenue_per_year, sessions_per_year, costs_per_year,
      opex_yearly, annual_loan_payment, annual_lease_payment, npf_pmt, loan_amount,
      energy_cost_per_year, avg_energy_cost_per_kwh, cng_percent, c1In, List.replicate_succ]
  refine ⟨rfl, rfl, rfl, hpay, ?_, ?_⟩
  · rw [hcf]
    norm_num [List.getD_cons_succ, List.getD_cons_zero]
  · rw [hcf, hpay]
    norm_num [List.getD_cons_succ, List.getD_cons_zero]

/-- C1 (amended): for every Purchase input the annual loan payment is
included in the cost of EVERY projected year 1..years, regardless of the
loan term: each such cash-flow entry equals revenue minus the cost
opex + annualLoanPayment + energyCost (the lease slot being 0). -/
theorem C1_loan_payment_every_year (i : StationInputs)
    (h : i.asset_ownership = AssetOwnership.outrightPurchase) :
    ∀ y, 1 ≤ y → y ≤ i.years →
      (cash_flows i).getD y 0 =
        revenue_per_year i -
          (opex_yearly i + annual_loan_payment i + 0 + energy_cost_per_year i) := by
  intro y h1 h2
  rw [cash_flows_getD i y h1 h2, net_cash_flow, costs_per_year]
  have hl : annual_lease_payment i = 0 := by rw [annual_lease_payment, h]
  rw [hl]

/-- Witness for C1 (amended) at c1In, year 2. -/
theorem C1_loan_payment_every_year_witness :
    c1In.asset_ownership = AssetOwnership.outrightPurchase ∧
    (cash_flows c1In).getD 2 0 =
      revenue_per_year c1In -
        (opex_yearly c1In + annual_loan_payment c1In + 0 + energy_cost_per_year c1In) :=
  ⟨rfl, C1_loan_payment_every_year c1In rfl 2 (by norm_num) (by norm_num [c1In])⟩

/-- C2 (code bug evaluated at the failing input c2In): its cash-flow
sequence is entirely negative (no sign change), npf.irr yields NaN, and
because NaN is truthy in Python the display guard on line 91 renders the
formatted NaN instead of "N/A" - the NaN is silently propagated rather
than surfaced as an explicit null. -/
theorem C2_nan_propagates :
    (∀ v ∈ cash_flows c2In, v < 0) ∧
    irr c2In = PyFloat.nan ∧
    pyTruthy PyFloat.nan = true ∧
    irr_metric c2In = IrrDisplay.formatted PyFloat.nan ∧
    irr_metric c2In ≠ IrrDisplay.na := by
  have hcf : cash_flows c2In = [-100, -1215, -1215] := by
    norm_num [cash_flows, net_cash_flow, revenue_per_year, sessions_per_year, costs_per_year,
      opex_yearly, annual_loan_payment, annual_lease_payment, npf_pmt, loan_amount,
      energy_cost_per_year, avg_energy_cost_per_kwh, cng_percent, c2In, List.replicate_succ]
  have hirr : irr c2In = PyFloat.nan := by
    rw [irr, hcf]
    norm_num [npf_irr, sameSign]
  refine ⟨?_, hirr, rfl, ?_, ?_⟩
  · rw [hcf]
    intro v hv
    simp only [List.mem_cons, List.not_mem_nil, or_false] at hv
    rcases hv with rfl | rfl | rfl <;> norm_num
  · rw [irr_metric, hirr]
    rfl
  · rw [irr_metric, hirr]
    simp [pyTruthy, pyMul]

/-- C3 counterexample: at the zero-sessions input zIn the code yields the
plain number 0 as breakeven price, a value indistinguishable from a
genuine zero breakeven, not a null/undefined marker. -/
theorem C3_counterexample :
    sessions_per_year zIn = 0 ∧
    breakeven_price_per_kwh zIn = 0 ∧
    PyFloat.val (breakeven_price_per_kwh zIn) ≠ PyFloat.nan := by
  refine ⟨?_, ?_, by simp⟩
  · norm_num [sessions_per_year, zIn]
  · norm_num [breakeven_price_per_kwh, sessions_per_year, zIn]

/-- C3 (amended): with positive sessions the breakeven price is the
yearly cost (which is the cost of the last projected year, the cost being
year-independent) divided by sessionsPerYear * avgKwhPerSession; with
zero sessions the guarded branch returns the number 0, never dividing. -/
theorem C3_breakeven (i : StationInputs) :
    (0 < sessions_per_year i →
      breakeven_price_per_kwh i =
        costs_per_year i / (sessions_per_year i * i.avg_kwh_per_session)) ∧
    (sessions_per_year i ≤ 0 → breakeven_price_per_kwh i = 0) := by
  constructor
  · intro h
    rw [breakeven_price_per_kwh, if_pos h]
  · intro h
    rw [breakeven_price_per_kwh, if_neg (not_lt.mpr h)]

/-- Witness for C3 (amended) at c1In, whose 365 yearly sessions are
positive. -/
theorem C3_breakeven_witness :
    0 < sessions_per_year c1In ∧
    breakeven_price_per_kwh c1In =
      costs_per_year c1In / (sessions_per_year c1In * c1In.avg_kwh_per_session) :=
  ⟨by norm_num [sessions_per_year, c1In],
   (C3_breakeven c1In).1 (by norm_num [sessions_per_year, c1In])⟩

/-- C4: the payback period is the smallest 1-indexed year whose
cumulative cash flow is strictly positive, none when no such year exists
within the horizon, and on the input realizing the cash-flow sequence
[-100, 60, 60] it equals 2. -/
theorem C4_payback (i : StationInputs) (hc : 0 ≤ i.capex) :
    (∀ y, pbp i = some y →
        1 ≤ y ∧ y ≤ i.years ∧ 0 < (cumulative_cf i).getD y 0 ∧
          ∀ z, z < y → ¬ 0 < (cumulative_cf i).getD z 0) ∧
    (pbp i = none → ∀ y, ¬ 0 < (cumulative_cf i).getD y 0) ∧
    cash_flows exIn = [-100, 60, 60] ∧ pbp exIn = some 2 := by
  refine ⟨?_, ?_, ?_, ?_⟩
  · intro y hy
    obtain ⟨-, hlen, hpos, hmin⟩ := firstIdxPos_some (cumulative_cf i) 0 y hy
    simp only [Nat.sub_zero] at hlen hpos hmin
    rw [cumulative_cf_length, cash_flows_length] at hlen
    have hy1 : 1 ≤ y := by
      rcases Nat.eq_zero_or_pos y with h0 | h1
      · subst h0
        rw [cumulative_cf_getD_zero, cash_flows_getD_zero] at hpos
        linarith
      · exact h1
    exact ⟨hy1, by omega, hpos, hmin⟩
  · intro hn y
    exact firstIdxPos_none (cumulative_cf i) 0 hn y
  · norm_num [cash_flows, net_cash_flow, revenue_per_year, sessions_per_year, costs_per_year,
      opex_yearly, annual_loan_payment, annual_lease_payment, npf_pmt, loan_amount,
      energy_cost_per_year, avg_energy_cost_per_kwh, cng_percent, exIn, List.replicate_succ]
  · norm_num [pbp, firstIdxPos, cumulative_cf, cumsumFrom, cash_flows, net_cash_flow,
      revenue_per_year, sessions_per_year, costs_per_year, opex_yearly, annual_loan_payment,
      annual_lease_payment, npf_pmt, loan_amount, energy_cost_per_year,
      avg_energy_cost_per_kwh, cng_percent, exIn, List.replicate_succ]

/-- Witness for C4 at exIn (capex 100, cash flows [-100, 60, 60]). -/
theorem C4_payback_witness :
    0 ≤ exIn.capex ∧ cash_flows exIn = [-100, 60, 60] ∧ pbp exIn = some 2 :=
  ⟨by norm_num [exIn], (C4_payback exIn (by norm_num [exIn])).2.2⟩

/-- C5: cashFlows has length years + 1, entry 0 is -capex, every entry
1..years is the constant yearly net cash flow, and cumulative_cf is its
running sum of the same length. -/
theorem C5_cash_flow_shape (i : StationInputs) :
    (cash_flows i).length = i.years + 1 ∧
    (cash_flows i).getD 0 0 = -i.capex ∧
    (∀ y, 1 ≤ y → y ≤ i.years → (cash_flows i).getD y 0 = net_cash_flow i) ∧
    (cumulative_cf i).length = (cash_flows i).length ∧
    (cumulative_cf i).getD 0 0 = (cash_flows i).getD 0 0 ∧
    ∀ y, 1 ≤ y → y ≤ i.years →
      (cumulative_cf i).getD y 0 =
        (cumulative_cf i).getD (y - 1) 0 + (cash_flows i).getD y 0 :=
  ⟨cash_flows_length i, cash_flows_getD_zero i, cash_flows_getD i,
   cumulative_cf_length i, cumulative_cf_getD_zero i, cumulative_cf_getD_succ i⟩

/-- Witness for C5 at c1In (years = 2), instantiating the per-year parts
at year 1. -/
theorem C5_cash_flow_shape_witness :
    (cash_flows c1In).length = c1In.years + 1 ∧
    (cash_flows c1In).getD 1 0 = net_cash_flow c1In ∧
    (cumulative_cf c1In).getD 1 0 =
      (cumulative_cf c1In).getD 0 0 + (cash_flows c1In).getD 1 0 :=
  ⟨(C5_cash_flow_shape c1In).1,
   (C5_cash_flow_shape c1In).2.2.1 1 (by norm_num) (by norm_num [c1In]),
   (C5_cash_flow_shape c1In).2.2.2.2.2 1 (by norm_num) (by norm_num [c1In])⟩

/-- C6: the source implements exactly the flat-cash-flow mode (it has no
growth or inflation parameter), so every projected year carries the same
net cash flow, and the yearly revenue is
sessionsPerDay * 365 * avgKwhPerSession * pricePerKwh. -/
theorem C6_flat_cash_flows (i : StationInputs) :
    (∀ y z, 1 ≤ y → y ≤ i.years → 1 ≤ z → z ≤ i.years →
      (cash_flows i).getD y 0 = (cash_flows i).getD z 0) ∧
    revenue_per_year i =
      i.sessions_per_day * 365 * i.avg_kwh_per_session * i.price_per_kwh := by
  constructor
  · intro y z h1 h2 h3 h4
    rw [cash_flows_getD i y h1 h2, cash_flows_getD i z h3 h4]
  · rw [revenue_per_year, sessions_per_year]

/-- Witness for C6 at c1In: years 1 and 2 carry the same flow. -/
theorem C6_flat_cash_flows_witness :
    (cash_flows c1In).getD 1 0 = (cash_flows c1In).getD 2 0 ∧
    revenue_per_year c1In =
      c1In.sessions_per_day * 365 * c1In.avg_kwh_per_session * c1In.price_per_kwh :=
  ⟨(C6_flat_cash_flows c1In).1 1 2 (by norm_num) (by norm_num [c1In])
      (by norm_num) (by norm_num [c1In]),
   (C6_flat_cash_flows c1In).2⟩

/-- C7: the weighted energy unit cost is the share-weighted sum over
solar, diesel, CNG and grid with the grid share clamped at zero, and with
solarPercent = 100 and dgPercent = 0 (hence cngPercent = 0) it equals
solarCostPerKwh exactly. -/
theorem C7_energy_mix (i : StationInputs) :
    avg_energy_cost_per_kwh i =
      (i.solar_percent / 100) * i.solar_cost_per_kwh +
        (i.dg_percent / 100) * i.dg_cost_per_kwh +
        (cng_percent i / 100) * i.cng_cost_per_kwh +
        (max 0 (100 - i.solar_percent - i.dg_percent - cng_percent i) / 100) *
          i.grid_cost_per_kwh ∧
    (i.solar_percent = 100 → i.dg_percent = 0 →
      cng_percent i = 0 ∧ avg_energy_cost_per_kwh i = i.solar_cost_per_kwh) := by
  refine ⟨rfl, ?_⟩
  intro h1 h2
  have hc : cng_percent i = 0 := by rw [cng_percent, h1, h2]; norm_num
  refine ⟨hc, ?_⟩
  rw [avg_energy_cost_per_kwh, hc, h1, h2]
  norm_num

/-- Witness for C7 at c1In (solar share 100, diesel share 0). -/
theorem C7_energy_mix_witness :
    c1In.solar_percent = 100 ∧ c1In.dg_percent = 0 ∧
    cng_percent c1In = 0 ∧ avg_energy_cost_per_kwh c1In = c1In.solar_cost_per_kwh :=
  ⟨rfl, rfl, (C7_energy_mix c1In).2 rfl rfl⟩

/-- The year-0 term of the NPV sum is the undiscounted -capex, so the NPV
splits as -capex plus the present value of the year 1..years inflows. -/
theorem npv_split (i : StationInputs) : npv i = -i.capex + pv_of_inflows i := by
  rw [npv, npf_npv, cash_flows, discountedSum]
  simp [pv_of_inflows, cash_flows]

/-- C8: with nonzero capex the profitability index equals both
(NPV + capex) / capex and (present value of inflows) / capex, the two
coinciding because NPV = -capex + PV of inflows; with capex = 0 it is the
NaN marker rather than an error. -/
theorem C8_profitability_index (i : StationInputs) :
    (i.capex ≠ 0 →
      pi i = PyFloat.val ((npv i + i.capex) / i.capex) ∧
      pi i = PyFloat.val (pv_of_inflows i / i.capex)) ∧
    (i.capex = 0 → pi i = PyFloat.nan) := by
  constructor
  · intro h
    have hnpv : npv i + i.capex = pv_of_inflows i := by rw [npv_split]; ring
    constructor
    · rw [pi, if_pos h, hnpv]
    · rw [pi, if_pos h]
  · intro h
    simp [pi, h]

/-- Witness for C8 at c1In (capex 100). -/
theorem C8_profitability_index_witness :
    c1In.capex ≠ 0 ∧ pi c1In = PyFloat.val ((npv c1In + c1In.capex) / c1In.capex) :=
  ⟨by norm_num [c1In], ((C8_profitability_index c1In).1 (by norm_num [c1In])).1⟩

/-- Because the CNG share is defined as the remainder 100 - solar - dg,
the clamped grid share is 0 for every input. -/
theorem grid_share_zero (j : StationInputs) :
    max 0 (100 - j.solar_percent - j.dg_percent - cng_percent j) = 0 := by
  have h : 100 - j.solar_percent - j.dg_percent - cng_percent j = 0 := by
    rw [cng_percent]; ring
  rw [h, max_self]

/-- C9: the grid unit cost is dead input: since the CNG share is the
remainder 100 - solar - dg, the clamped grid share is always 0, so
changing gridCostPerKwh alone leaves every computed output (energy cost,
cash flows, NPV, IRR, payback, PI, breakeven price) unchanged. -/
theorem C9_grid_cost_irrelevant (i : StationInputs) (g : ℚ) :
    avg_energy_cost_per_kwh { i with grid_cost_per_kwh := g } = avg_energy_cost_per_kwh i ∧
    cash_flows { i with grid_cost_per_kwh := g } = cash_flows i ∧
    npv { i with grid_cost_per_kwh := g } = npv i ∧
    irr { i with grid_cost_per_kwh := g } = irr i ∧
    pbp { i with grid_cost_per_kwh := g } = pbp i ∧
    pi { i with grid_cost_per_kwh := g } = pi i ∧
    breakeven_price_per_kwh { i with grid_cost_per_kwh := g } =
      breakeven_price_per_kwh i := by
  have hE : avg_energy_cost_per_kwh { i with grid_cost_per_kwh := g } =
      avg_energy_cost_per_kwh i := by
    rw [avg_energy_cost_per_kwh, avg_energy_cost_per_kwh, grid_share_zero, grid_share_zero]
    norm_num [cng_percent]
  have hcost : costs_per_year { i with grid_cost_per_kwh := g } = costs_per_year i := by
    simp only [costs_per_year, opex_yearly, annual_loan_payment, annual_lease_payment,
      loan_amount, energy_cost_per_year, sessions_per_year, hE]
  have hcf : cash_flows { i with grid_cost_per_kwh := g } = cash_flows i := by
    simp only [cash_flows, net_cash_flow, revenue_per_year, sessions_per_year, hcost]
  refine ⟨hE, hcf, ?_, ?_, ?_, ?_, ?_⟩
  · rw [npv, npv, hcf]
  · rw [irr, irr, hcf]
  · rw [pbp, pbp, cumulative_cf, cumulative_cf, hcf]
  · simp only [pi, pv_of_inflows, hcf]
  · simp only [breakeven_price_per_kwh, sessions_per_year, hcost]

/-- C10: the breakeven price is independent of the selling price per kWh:
the yearly cost (opex, financing, energy) contains no revenue term, so
changing pricePerKwh alone leaves the breakeven price (and the whole
yearly cost) unchanged. -/
theorem C10_breakeven_independent_of_price (i : StationInputs) (p : ℚ) :
    costs_per_year { i with price_per_kwh := p } = costs_per_year i ∧
    breakeven_price_per_kwh { i with price_per_kwh := p } =
      breakeven_price_per_kwh i := by
  have hcost : costs_per_year { i with price_per_kwh := p } = costs_per_year i := by
    simp only [costs_per_year, opex_yearly, annual_loan_payment, annual_lease_payment,
      loan_amount, energy_cost_per_year, sessions_per_year, avg_energy_cost_per_kwh,
      cng_percent]
  exact ⟨hcost, by simp only [breakeven_price_per_kwh, sessions_per_year, hcost]⟩

end EvModel
